import Mathlib

/-!
Shallow embedding of `src/data-endpoint/src/create_accessibility_report.py`:
a script that probes SPARQL endpoints, classifies each as
available / invalid / unavailable, and merges a `lastAvailable`
carry-forward date from the previous report into the new one.

Pure parts of the script (classification, the merge loop, path
construction) become Lean functions; I/O boundaries (the network probe,
the file system) are made explicit parameters: the probe is a function
`String → Bool × Bool`, the result of the single SPARQL query is an
`Except` value, and the file system is a map from paths to entries.
-/

/-! ## Constants (module-level constants of the script) -/

def TIMEOUT_SECOND : Nat := 5

def STATUS_UNAVAILABLE : String := "unavailable"

def STATUS_QUERY_FAILED : String := "invalid"

def STATUS_AVAILABLE : String := "available"

/-! ## Data model -/

/-- One endpoint as produced by `load_endpoints`:
`"@id"` (absolute resource id), `"relative"`, `"url"`. -/
structure Endpoint where
  id : String
  relative : String
  url : String
deriving DecidableEq

/-- An endpoint dict after `test_endpoints_availability` added `"status"`
(`{**endpoint, "status": status}`). -/
structure ProbedEndpoint where
  id : String
  relative : String
  url : String
  status : String
deriving DecidableEq

/-- `{**endpoint, "status": status}` of the script. -/
def withStatus (e : Endpoint) (status : String) : ProbedEndpoint :=
  { id := e.id, relative := e.relative, url := e.url, status := status }

/-- One record of the `"report"` array: keys `"@id"`, `"endpoint"`,
`"url"`, `"status"`, and the optional `"lastAvailable"`. -/
structure ReportItem where
  id : String
  endpoint : String
  url : String
  status : String
  lastAvailable : Option String
deriving DecidableEq

/-- The report JSON document, restricted to the fields the script
reads back on the next run: `metadata.created`, `metadata.timeoutSecond`,
`metadata.version`, and the `report` array. -/
structure Report where
  created : String
  timeoutSecond : Nat
  version : Nat
  report : List ReportItem
deriving DecidableEq

/-- One entry of the `content["endpoint"]` array of the input listing:
`"@id"` (relative) and `"url"`. -/
structure SourceItem where
  id : String
  url : String
deriving DecidableEq

/-! ## load_endpoints -/

/-- `load_endpoints`, after `json.load`: maps every item of
`content["endpoint"]` to a dict; no deduplication of any kind. -/
def load_endpoints (base : String) (items : List SourceItem) : List Endpoint :=
  items.map fun item => { id := base ++ item.id, relative := item.id, url := item.url }

/-! ## Probe (`test_endpoint`) -/

/-- Python values as far as `test_endpoint` inspects its response:
`type(response) == dict` and `"boolean" in response`. -/
inductive PyValue where
  | pdict (entries : List (String × PyValue))
  | plist (items : List PyValue)
  | pstr (s : String)
  | pint (n : Int)
  | pbool (b : Bool)
  | pnone

/-- `type(response) == dict`. -/
def PyValue.isDict : PyValue → Bool
  | .pdict _ => true
  | _ => false

/-- `key in response` for a dict (`false` on non-dicts, matching the
short-circuit in `test_endpoint`, which tests `type` first). -/
def PyValue.hasKey : PyValue → String → Bool
  | .pdict entries, k => entries.any fun kv => kv.1 = k
  | _, _ => false

/-- The query string `test_endpoint` sends (line 120 of the script). -/
def TEST_QUERY : String := "SELECT ?s ?p ?o WHERE\x7b ?s ?p ?o \x7d LIMIT 1"

/-- `test_endpoint` after the network call: the behaviour of
`endpoint.query().convert()` is the `Except` argument (`error` models any
raised exception, caught by the bare `except:`; `ok` the returned value).
Returns the `(available, can_query)` pair. -/
def test_endpoint (ε : Type) (queryResult : Except ε PyValue) : Bool × Bool :=
  match queryResult with
  | .error _ => (false, false)
  | .ok response =>
      if !response.isDict || !(response.hasKey "boolean") then (true, false)
      else (true, true)

/-! ## Classifier -/

/-- The status chain in `test_endpoints_availability`:
`if not available: unavailable elif not can_query: invalid else: available`. -/
def classify (available can_query : Bool) : String :=
  if !available then STATUS_UNAVAILABLE
  else if !can_query then STATUS_QUERY_FAILED
  else STATUS_AVAILABLE

/-- The spec's tri-state probe outcome. -/
inductive ProbeOutcome where
  | Unreachable
  | Unqueryable
  | Ok
deriving DecidableEq

/-- The `(available, can_query)` pair `test_endpoint` returns for each
outcome: `(False, False)`, `(True, False)`, `(True, True)`. -/
def ProbeOutcome.toPair : ProbeOutcome → Bool × Bool
  | .Unreachable => (false, false)
  | .Unqueryable => (true, false)
  | .Ok => (true, true)

/-- The classifier as a function of the probe outcome. -/
def classifyOutcome (o : ProbeOutcome) : String :=
  classify o.toPair.1 o.toPair.2

/-! ## test_endpoints_availability -/

/-- The loop body of `test_endpoints_availability`, with the running
`index` of `enumerate` explicit. Note the `if index > 3: break` after the
append: the loop stops after the fifth endpoint. -/
def test_endpoints_aux (probe : String → Bool × Bool) : Nat → List Endpoint → List ProbedEndpoint
  | _, [] => []
  | index, endpoint :: rest =>
      let r := probe endpoint.url
      let status := classify r.1 r.2
      let item := withStatus endpoint status
      if index > 3 then [item]
      else item :: test_endpoints_aux probe (index + 1) rest

/-- `test_endpoints_availability`: probe each endpoint in input order
(the probe itself is a parameter, abstracting `test_endpoint` plus the
network). -/
def test_endpoints_availability (probe : String → Bool × Bool)
    (endpoints : List Endpoint) : List ProbedEndpoint :=
  test_endpoints_aux probe 0 endpoints

/-- A probe for concrete evaluation: every endpoint answers Ok. -/
def probe_ok : String → Bool × Bool := fun _ => (true, true)

/-! ## Merge engine (`write_report`, lines 134-164) -/

/-- The dict comprehension
`{report_item["@id"]: report_item for report_item in last_report["report"]}`
as a lookup function: a later item with the same `"@id"` overwrites an
earlier one. -/
def availabilityLookup (items : List ReportItem) (id : String) : Option ReportItem :=
  items.foldl (fun acc item => if item.id = id then some item else acc) none

/-- Lookup into the prior report's availability map; an absent prior
report gives the empty map. -/
def historyLookup (last_report : Option Report) : String → Option ReportItem :=
  match last_report with
  | none => fun _ => none
  | some r => availabilityLookup r.report

/-- The loop body of `write_report`: build one report item and attach
`lastAvailable` exactly as lines 146-162 of the script do. -/
def mergeItem (last_date : Option String) (lookup : String → Option ReportItem)
    (endpoint : ProbedEndpoint) : ReportItem :=
  let base : ReportItem :=
    { id := endpoint.relative, endpoint := endpoint.id, url := endpoint.url,
      status := endpoint.status, lastAvailable := none }
  if endpoint.status = STATUS_AVAILABLE then base
  else
    let last_available : Option String :=
      match lookup endpoint.relative with
      | none => none
      | some prior =>
          if prior.status = STATUS_AVAILABLE then last_date
          else prior.lastAvailable
    { base with lastAvailable := last_available }

/-- The pure core of `write_report`: given the probed endpoints, the
parsed prior report (if any) and today's date string, build the new
report document. -/
def write_report (endpoints : List ProbedEndpoint) (last_report : Option Report)
    (today : String) : Report :=
  { created := today, timeoutSecond := TIMEOUT_SECOND, version := 1,
    report := endpoints.map
      (mergeItem (last_report.map Report.created) (historyLookup last_report)) }

/-! ## Runs chained through the file written by `write_report` -/

/-- One further run whose prior report is `prev` (the report the previous
run wrote): probe yields `status`, run date is `day`. -/
def nextRun (prev : Report) (e : Endpoint) (status day : String) : Report :=
  write_report [withStatus e status] (some prev) day

/-- A sequence of runs, each feeding its report to the next as the prior
report: `runs` lists the `(status, day)` of each successive run. -/
def chainRuns (start : Report) (e : Endpoint) (runs : List (String × String)) : Report :=
  runs.foldl (fun prev sd => nextRun prev e sd.1 sd.2) start

/-! ## File system model (`load_json`, `write_json`, `symlink_report`) -/

/-- What a file on disk holds, as far as the script inspects it: either
bytes that `json.load` parses into a report document, or bytes on which
`json.load` raises (`malformed`). -/
inductive FileContent where
  | json (r : Report)
  | malformed
deriving DecidableEq

/-- A directory entry: a regular file or a symbolic link. -/
inductive FsEntry where
  | file (c : FileContent)
  | link (target : String)
deriving DecidableEq

/-- The file system: a map from paths to entries. -/
abbrev Fs := String → Option FsEntry

/-- `os.path.join` for the shapes the script uses (joining a directory
with a plain relative file name): insert a `/` separator unless the
directory is empty or already ends in one. -/
def os_path_join (directory name : String) : String :=
  if directory = "" then name
  else if directory.data.getLast? = some '/' then directory ++ name
  else directory ++ "/" ++ name

/-- Read a path, following a symbolic link to its target (as
`os.path.exists` and `open` do); a dangling link reads as absent. -/
def readPath (fs : Fs) (path : String) : Option FileContent :=
  match fs path with
  | none => none
  | some (.file c) => some c
  | some (.link target) =>
      match fs target with
      | some (.file c) => some c
      | _ => none

/-- The error `json.load` raises on unparsable input. -/
inductive LoadError where
  | parseError
deriving DecidableEq

/-- `load_json`: `None` when the path does not exist, the parsed document
when it parses, and a raised error when `json.load` fails. -/
def load_json (fs : Fs) (path : String) : Except LoadError (Option Report) :=
  match readPath fs path with
  | none => .ok none
  | some (.json r) => .ok (some r)
  | some .malformed => .error .parseError

/-- `report_path`: `sparql-YYYY-MM-DD.json` inside the directory. -/
def report_path (directory date : String) : String :=
  os_path_join directory ("sparql-" ++ date ++ ".json")

/-- `write_report` with its file system effects: load the prior report
from the fixed name `sparql.json` in the output directory (propagating a
parse error, which aborts the run before anything is written), then build
the new report and write it to the dated path. On success returns the
report, the path written, and the updated file system. -/
def write_report_run (fs : Fs) (endpoints : List ProbedEndpoint)
    (directory today : String) : Except LoadError (Report × String × Fs) :=
  match load_json fs (os_path_join directory "sparql.json") with
  | .error e => .error e
  | .ok last_report =>
      let report := write_report endpoints last_report today
      let output_path := report_path directory today
      let fs2 : Fs := fun p =>
        if p = output_path then some (.file (.json report)) else fs p
      .ok (report, output_path, fs2)

/-- Projection of `write_report_run` onto the report it builds. -/
def reportOf (x : Except LoadError (Report × String × Fs)) : Except LoadError Report :=
  Except.map Prod.fst x

/-- `symlink.unlink(missing_ok=True)`: remove the entry at `path`. -/
def unlink_fs (fs : Fs) (path : String) : Fs :=
  fun p => if p = path then none else fs p

/-- `symlink.symlink_to(target)`: create a link at `path`. -/
def symlink_to (fs : Fs) (path target : String) : Fs :=
  fun p => if p = path then some (.link target) else fs p

/-- `symlink_report`: unlink `directory/sparql.json`, then re-create it
as a link to `target_path` — two separate file system steps. -/
def symlink_report (fs : Fs) (directory target_path : String) : Fs :=
  symlink_to (unlink_fs fs (os_path_join directory "sparql.json"))
    (os_path_join directory "sparql.json") target_path

/-! ## Concrete fixtures for evaluation -/

/-- Six endpoints, more than the loop's `if index > 3: break` allows. -/
def sixEndpoints : List Endpoint :=
  [ { id := "B/e1", relative := "e1", url := "http://u1" },
    { id := "B/e2", relative := "e2", url := "http://u2" },
    { id := "B/e3", relative := "e3", url := "http://u3" },
    { id := "B/e4", relative := "e4", url := "http://u4" },
    { id := "B/e5", relative := "e5", url := "http://u5" },
    { id := "B/e6", relative := "e6", url := "http://u6" } ]

/-- Two source items with the same `url` and distinct ids. -/
def dupSource : List SourceItem :=
  [ { id := "e1", url := "http://example.com/sparql" },
    { id := "e2", url := "http://example.com/sparql" } ]

/-- The shape of a well-formed SPARQL SELECT JSON result: keys `head`
and `results`, no `boolean` key. -/
def select_result_value : PyValue :=
  .pdict
    [ ("head", .pdict [("vars", .plist [.pstr "s", .pstr "p", .pstr "o"])]),
      ("results", .pdict [("bindings", .plist [])]) ]

/-! ## Theorems -/

/-- C4: the classifier is a total function from `ProbeOutcome` to the
three status strings: `Unreachable ↦ "unavailable"`,
`Unqueryable ↦ "invalid"`, `Ok ↦ "available"`, and every outcome is
mapped to exactly one of the three (the three strings being pairwise
distinct). -/
theorem c4_classifier_total_mapping :
    classifyOutcome ProbeOutcome.Unreachable = STATUS_UNAVAILABLE
    ∧ classifyOutcome ProbeOutcome.Unqueryable = STATUS_QUERY_FAILED
    ∧ classifyOutcome ProbeOutcome.Ok = STATUS_AVAILABLE
    ∧ (∀ o : ProbeOutcome,
        (classifyOutcome o = STATUS_UNAVAILABLE
          ∧ classifyOutcome o ≠ STATUS_QUERY_FAILED
          ∧ classifyOutcome o ≠ STATUS_AVAILABLE)
        ∨ (classifyOutcome o ≠ STATUS_UNAVAILABLE
          ∧ classifyOutcome o = STATUS_QUERY_FAILED
          ∧ classifyOutcome o ≠ STATUS_AVAILABLE)
        ∨ (classifyOutcome o ≠ STATUS_UNAVAILABLE
          ∧ classifyOutcome o ≠ STATUS_QUERY_FAILED
          ∧ classifyOutcome o = STATUS_AVAILABLE)) := by
  refine ⟨by decide, by decide, by decide, ?_⟩
  intro o
  cases o
  · exact Or.inl (by decide)
  · exact Or.inr (Or.inl (by decide))
  · exact Or.inr (Or.inr (by decide))

/-- C5: the probe never raises past its boundary: whatever the
underlying query call does — return any value `v` or raise any
exception `e` — `test_endpoint` returns one of the three outcome pairs,
with every raised exception mapped to `(false, false)` and every
returned value mapped to `(true, false)` or `(true, true)`. -/
theorem c5_probe_total_outcomes (ε : Type) (e : ε) (v : PyValue)
    (r : Except ε PyValue) :
    test_endpoint ε (Except.error e) = (false, false)
    ∧ (test_endpoint ε (Except.ok v) = (true, false)
        ∨ test_endpoint ε (Except.ok v) = (true, true))
    ∧ (test_endpoint ε r = (false, false)
        ∨ test_endpoint ε r = (true, false)
        ∨ test_endpoint ε r = (true, true)) := by
  have hok : ∀ w : PyValue, test_endpoint ε (Except.ok w) = (true, false)
      ∨ test_endpoint ε (Except.ok w) = (true, true) := by
    intro w
    by_cases h : (!w.isDict || !(w.hasKey "boolean")) = true
    · exact Or.inl (by simp [test_endpoint, h])
    · exact Or.inr (by simp [test_endpoint, h])
  refine ⟨rfl, hok v, ?_⟩
  cases r with
  | error f => exact Or.inl rfl
  | ok w =>
      rcases hok w with h | h
      · exact Or.inr (Or.inl h)
      · exact Or.inr (Or.inr h)

/-- C10: `test_endpoint` returns `(true, true)` exactly when the
response is a dict containing the key `"boolean"`; every other returned
value gives `(true, false)`. Yet the query it sends is a SELECT query
(its first six characters are `SELECT`), and a well-formed SELECT
result — a dict with `head` and `results` keys and no `boolean` key —
is classified `(true, false)`, i.e. `invalid`. -/
theorem c10_ok_requires_boolean_key (ε : Type) (v : PyValue) :
    (test_endpoint ε (Except.ok v) = (true, true)
      ↔ (v.isDict = true ∧ v.hasKey "boolean" = true))
    ∧ (test_endpoint ε (Except.ok v) = (true, true)
        ∨ test_endpoint ε (Except.ok v) = (true, false))
    ∧ TEST_QUERY.data.take 6 = "SELECT".data
    ∧ test_endpoint ε (Except.ok select_result_value) = (true, false) := by
  have hdef : ∀ w : PyValue, test_endpoint ε (Except.ok w)
      = if !w.isDict || !(w.hasKey "boolean") then (true, false)
        else (true, true) := fun _ => rfl
  refine ⟨?_, ?_, by decide, ?_⟩
  · rw [hdef]
    cases hd : v.isDict <;> cases hk : v.hasKey "boolean" <;> simp [hd, hk]
  · rw [hdef]
    cases hd : v.isDict <;> cases hk : v.hasKey "boolean" <;> simp [hd, hk]
  · rw [hdef]
    decide

/-- C3: evaluation at the failing input: on a list of six endpoints,
all of which probe Ok, `test_endpoints_availability` emits only five
records (the loop's `if index > 3: break` fires after the fifth
endpoint), not one per input endpoint; the five records that are
emitted follow the input order of the first five endpoints. -/
theorem c3_break_truncates_at_five :
    sixEndpoints.length = 6
    ∧ (test_endpoints_availability probe_ok sixEndpoints).length = 5
    ∧ (test_endpoints_availability probe_ok sixEndpoints).map ProbedEndpoint.url
        = (sixEndpoints.take 5).map Endpoint.url := by
  decide

/-- C7 counterexample: two input records with identical `url` do NOT
collapse: `load_endpoints` keeps both and `test_endpoints_availability`
emits two records carrying that same url, not one. -/
theorem c7_duplicate_urls_not_collapsed :
    (test_endpoints_availability probe_ok (load_endpoints "https://base/" dupSource)).length = 2
    ∧ (test_endpoints_availability probe_ok (load_endpoints "https://base/" dupSource)).map
          ProbedEndpoint.url
        = ["http://example.com/sparql", "http://example.com/sparql"] := by
  decide

/-- Helper for C7: within the five-endpoint truncation bound, the loop
emits one record per input endpoint, in order, duplicates included. -/
theorem test_endpoints_aux_urls (probe : String → Bool × Bool) :
    ∀ (l : List Endpoint) (idx : Nat), idx + l.length ≤ 5 →
      (test_endpoints_aux probe idx l).map ProbedEndpoint.url = l.map Endpoint.url := by
  intro l
  induction l with
  | nil => intro idx h; rfl
  | cons e rest ih =>
      intro idx h
      by_cases hidx : idx > 3
      · have hz : rest.length = 0 := by
          simp only [List.length_cons] at h
          omega
        have hrest : rest = [] := List.length_eq_zero.mp hz
        subst hrest
        simp [test_endpoints_aux, hidx, withStatus]
      · have hrec := ih (idx + 1) (by simp only [List.length_cons] at h; omega)
        simp [test_endpoints_aux, hidx, withStatus, hrec]

/-- C7 amended: duplicate urls are not deduplicated anywhere: for every
input listing (within the five-record truncation of the probing loop),
every input record — duplicates included — is probed and yields its own
output record, in input order. -/
theorem c7_amended_no_dedup (base : String) (items : List SourceItem)
    (probe : String → Bool × Bool) (h : items.length ≤ 5) :
    (test_endpoints_availability probe (load_endpoints base items)).map
        ProbedEndpoint.url
      = items.map SourceItem.url := by
  have hlen : (load_endpoints base items).length = items.length := by
    simp [load_endpoints]
  have haux := test_endpoints_aux_urls probe (load_endpoints base items) 0
    (by rw [hlen]; omega)
  rw [test_endpoints_availability, haux, load_endpoints, List.map_map]
  rfl

/-- C7 amended, witness: at the concrete duplicated input both records
survive, each with its own output record. -/
theorem c7_amended_no_dedup_witness :
    (test_endpoints_availability probe_ok (load_endpoints "https://base/" dupSource)).map
        ProbedEndpoint.url
      = dupSource.map SourceItem.url :=
  c7_amended_no_dedup "https://base/" dupSource probe_ok (by decide)

/-- Helper: the availability map is built from the prior report, so a
hit in it forces a prior report to exist. -/
theorem historyLookup_some {last_report : Option Report} {key : String}
    {prior : ReportItem} (h : historyLookup last_report key = some prior) :
    ∃ r, last_report = some r := by
  cases last_report with
  | none => simp [historyLookup] at h
  | some r => exact ⟨r, rfl⟩

/-- C1: the merge rule for `lastAvailable`, per endpoint. The record at
position `i` of the new report corresponds to the endpoint at position
`i` of the input, and: an `available` status carries no `lastAvailable`;
otherwise a prior record with status `available` gives the prior
report's `created` date, a prior record with another status passes its
own `lastAvailable` through (possibly absent), and no prior record gives
no `lastAvailable`. Consequently `lastAvailable` is present iff the
status is not `available` and the prior record witnesses an available
sighting directly (status `available`) or transitively (its own
`lastAvailable` present). -/
theorem c1_last_available_rule (endpoints : List ProbedEndpoint)
    (last_report : Option Report) (today : String) (i : Nat)
    (e : ProbedEndpoint) (he : endpoints[i]? = some e) :
    ∃ item,
      (write_report endpoints last_report today).report[i]? = some item
      ∧ (e.status = STATUS_AVAILABLE → item.lastAvailable = none)
      ∧ (e.status ≠ STATUS_AVAILABLE →
          (∀ prior, historyLookup last_report e.relative = some prior →
              (prior.status = STATUS_AVAILABLE →
                ∃ r, last_report = some r ∧ item.lastAvailable = some r.created)
              ∧ (prior.status ≠ STATUS_AVAILABLE →
                item.lastAvailable = prior.lastAvailable))
          ∧ (historyLookup last_report e.relative = none →
              item.lastAvailable = none))
      ∧ (item.lastAvailable.isSome = true ↔
          (e.status ≠ STATUS_AVAILABLE
            ∧ ∃ prior, historyLookup last_report e.relative = some prior
                ∧ (prior.status = STATUS_AVAILABLE
                    ∨ prior.lastAvailable.isSome = true))) := by
  refine ⟨mergeItem (last_report.map Report.created) (historyLookup last_report) e,
    ?_, ?_, ?_, ?_⟩
  · simp [write_report, List.getElem?_map, he]
  · intro hs
    simp [mergeItem, hs]
  · intro hs
    constructor
    · intro prior hp
      constructor
      · intro hps
        obtain ⟨r, hr⟩ := historyLookup_some hp
        refine ⟨r, hr, ?_⟩
        subst hr
        simp [mergeItem, hs, hp, hps]
      · intro hps
        simp [mergeItem, hs, hp, hps]
    · intro hp
      simp [mergeItem, hs, hp]
  · by_cases hs : e.status = STATUS_AVAILABLE
    · simp [mergeItem, hs]
    · cases hp : historyLookup last_report e.relative with
      | none => simp [mergeItem, hs, hp]
      | some prior =>
          by_cases hps : prior.status = STATUS_AVAILABLE
          · obtain ⟨r, hr⟩ := historyLookup_some hp
            subst hr
            simp only [mergeItem, hs, hp, hps, if_neg hs, if_pos hps]
            simp [hs, hp, hps]
          · simp [mergeItem, hs, hp, hps]

/-- A prior report for the C1 witness: endpoint `e1` was available on
2024-01-01. -/
def rpt1 : Report :=
  { created := "2024-01-01", timeoutSecond := 5, version := 1,
    report := [ { id := "e1", endpoint := "https://base/e1", url := "http://u",
                  status := "available", lastAvailable := none } ] }

/-- Endpoint `e1`, now probed unavailable. -/
def peU : ProbedEndpoint :=
  { id := "https://base/e1", relative := "e1", url := "http://u",
    status := "unavailable" }

/-- Input list for the C1 witness. -/
def endpoints1 : List ProbedEndpoint := [peU]

/-- C1 witness: the merge rule applied at a concrete run — endpoint
`e1` available yesterday, unavailable today. -/
theorem c1_last_available_rule_witness :
    ∃ item,
      (write_report endpoints1 (some rpt1) "2024-01-02").report[0]? = some item
      ∧ (peU.status = STATUS_AVAILABLE → item.lastAvailable = none)
      ∧ (peU.status ≠ STATUS_AVAILABLE →
          (∀ prior, historyLookup (some rpt1) peU.relative = some prior →
              (prior.status = STATUS_AVAILABLE →
                ∃ r, (some rpt1 : Option Report) = some r
                  ∧ item.lastAvailable = some r.created)
              ∧ (prior.status ≠ STATUS_AVAILABLE →
                item.lastAvailable = prior.lastAvailable))
          ∧ (historyLookup (some rpt1) peU.relative = none →
              item.lastAvailable = none))
      ∧ (item.lastAvailable.isSome = true ↔
          (peU.status ≠ STATUS_AVAILABLE
            ∧ ∃ prior, historyLookup (some rpt1) peU.relative = some prior
                ∧ (prior.status = STATUS_AVAILABLE
                    ∨ prior.lastAvailable.isSome = true))) :=
  c1_last_available_rule endpoints1 (some rpt1) "2024-01-02" 0 peU (by decide)

/-- Invariant threaded through a chain of runs on a single endpoint:
the report holds exactly one record, keyed by the endpoint's relative
id, and either the endpoint was available this run and the report is
dated `day1`, or it was not and `lastAvailable` is `day1`. -/
def singleState (e : Endpoint) (day1 : String) (r : Report) : Prop :=
  ∃ item, r.report = [item] ∧ item.id = e.relative
    ∧ ((item.status = STATUS_AVAILABLE ∧ r.created = day1)
      ∨ (item.status ≠ STATUS_AVAILABLE ∧ item.lastAvailable = some day1))

/-- Helper: one non-available run on a `singleState` report produces the
fully determined record carrying `lastAvailable = day1`. -/
theorem chain_step (e : Endpoint) (day1 : String) (r : Report) (s day : String)
    (hs : s ≠ STATUS_AVAILABLE) (hr : singleState e day1 r) :
    (nextRun r e s day).report
      = [{ id := e.relative, endpoint := e.id, url := e.url, status := s,
           lastAvailable := some day1 }] := by
  obtain ⟨item0, hrep, hid, hcase⟩ := hr
  have hlook : availabilityLookup r.report e.relative = some item0 := by
    rw [hrep]
    simp [availabilityLookup, hid]
  have hla : (if item0.status = STATUS_AVAILABLE then some r.created
      else item0.lastAvailable) = some day1 := by
    rcases hcase with ⟨hst, hcr⟩ | ⟨hst, hla0⟩
    · rw [if_pos hst, hcr]
    · rw [if_neg hst, hla0]
  show [mergeItem (some r.created) (availabilityLookup r.report) (withStatus e s)] = _
  simp [mergeItem, withStatus, hs, hlook, hla]

/-- Helper: `singleState` is preserved by a non-available run. -/
theorem singleState_step (e : Endpoint) (day1 : String) (r : Report)
    (s day : String) (hs : s ≠ STATUS_AVAILABLE) (hr : singleState e day1 r) :
    singleState e day1 (nextRun r e s day) := by
  refine ⟨_, chain_step e day1 r s day hs hr, rfl, Or.inr ⟨hs, rfl⟩⟩

/-- Helper: `singleState` is preserved along any chain of non-available
runs. -/
theorem chain_invariant (e : Endpoint) (day1 : String)
    (runs : List (String × String))
    (hna : ∀ sd ∈ runs, sd.1 ≠ STATUS_AVAILABLE) (r : Report)
    (hr : singleState e day1 r) : singleState e day1 (chainRuns r e runs) := by
  induction runs generalizing r with
  | nil => exact hr
  | cons head tail ih =>
      have hstep := singleState_step e day1 r head.1 head.2
        (hna head (by simp)) hr
      exact ih (fun sd hsd => hna sd (by simp [hsd])) _ hstep

/-- Helper: the first run of a chain, with the endpoint available,
establishes the invariant whatever the prior report was. -/
theorem start_state (e : Endpoint) (prior0 : Option Report) (day1 : String) :
    singleState e day1 (write_report [withStatus e STATUS_AVAILABLE] prior0 day1) := by
  refine ⟨mergeItem (prior0.map Report.created) (historyLookup prior0)
    (withStatus e STATUS_AVAILABLE), rfl, ?_, Or.inl ⟨?_, rfl⟩⟩
  · simp [mergeItem, withStatus]
  · simp [mergeItem, withStatus]

/-- C2: run 1 writes the endpoint `available` on `day1`; each later run
feeds its report to the next as the prior report. Then after every
prefix of the non-available runs the single record carries
`lastAvailable = day1`, unchanged run after run; and the first run in
which the endpoint is `available` again produces a record with no
`lastAvailable`. -/
theorem c2_carry_forward_and_clear (e : Endpoint) (prior0 : Option Report)
    (day1 dayFinal : String) (runs : List (String × String))
    (hna : ∀ sd ∈ runs, sd.1 ≠ STATUS_AVAILABLE) :
    (∀ k, (hk : k < runs.length) →
        (chainRuns (write_report [withStatus e STATUS_AVAILABLE] prior0 day1) e
            (runs.take (k + 1))).report
          = [{ id := e.relative, endpoint := e.id, url := e.url,
               status := runs[k].1, lastAvailable := some day1 }])
    ∧ (nextRun
          (chainRuns (write_report [withStatus e STATUS_AVAILABLE] prior0 day1) e runs)
          e STATUS_AVAILABLE dayFinal).report
        = [{ id := e.relative, endpoint := e.id, url := e.url,
             status := STATUS_AVAILABLE, lastAvailable := none }] := by
  constructor
  · intro k hk
    have htake : runs.take (k + 1) = runs.take k ++ [runs[k]] := by
      rw [List.take_succ]
      simp [List.getElem?_eq_getElem hk]
    have hchain : chainRuns (write_report [withStatus e STATUS_AVAILABLE] prior0 day1) e
          (runs.take k ++ [runs[k]])
        = nextRun
            (chainRuns (write_report [withStatus e STATUS_AVAILABLE] prior0 day1) e
              (runs.take k))
            e (runs[k]).1 (runs[k]).2 := by
      simp only [chainRuns]
      rw [List.foldl_append]
      rfl
    have hinv := chain_invariant e day1 (runs.take k)
      (fun sd hsd => hna sd (List.take_subset _ _ hsd)) _
      (start_state e prior0 day1)
    rw [htake, hchain]
    exact chain_step e day1 _ (runs[k]).1 (runs[k]).2
      (hna runs[k] (List.getElem_mem hk)) hinv
  · show [mergeItem _ _ (withStatus e STATUS_AVAILABLE)] = _
    simp [mergeItem, withStatus]

/-- The endpoint of the C2 witness scenario. -/
def eW : Endpoint := { id := "https://base/e1", relative := "e1", url := "http://u" }

/-- Three non-available runs after day 1. -/
def runsW : List (String × String) :=
  [("unavailable", "2024-01-02"), ("unavailable", "2024-01-03"),
   ("invalid", "2024-01-04")]

/-- C2 witness: the concrete four-day scenario of the spec — available
on 2024-01-01, not available on the next three days (`lastAvailable`
stays 2024-01-01, shown here after day 3), available again on
2024-01-05 (no `lastAvailable`). -/
theorem c2_carry_forward_and_clear_witness :
    (chainRuns (write_report [withStatus eW STATUS_AVAILABLE] none "2024-01-01") eW
        (runsW.take 2)).report
      = [{ id := "e1", endpoint := "https://base/e1", url := "http://u",
           status := "unavailable", lastAvailable := some "2024-01-01" }]
    ∧ (nextRun
          (chainRuns (write_report [withStatus eW STATUS_AVAILABLE] none "2024-01-01") eW
            runsW)
          eW STATUS_AVAILABLE "2024-01-05").report
        = [{ id := "e1", endpoint := "https://base/e1", url := "http://u",
             status := STATUS_AVAILABLE, lastAvailable := none }] :=
  ⟨(c2_carry_forward_and_clear eW none "2024-01-01" "2024-01-05" runsW
      (by decide)).1 1 (by decide),
   (c2_carry_forward_and_clear eW none "2024-01-01" "2024-01-05" runsW
      (by decide)).2⟩

/-- C6: history loading distinguishes absence from malformedness. If
nothing readable is at `directory/sparql.json`, the run proceeds with
empty history and writes the new report to the dated path (first-run
state, not an error). If the file is there but `json.load` fails, the
error propagates out of `write_report` and the run ends with no report
produced. -/
theorem c6_history_absent_vs_malformed (fs : Fs) (endpoints : List ProbedEndpoint)
    (directory today : String) :
    (readPath fs (os_path_join directory "sparql.json") = none →
        write_report_run fs endpoints directory today
          = Except.ok (write_report endpoints none today, report_path directory today,
              fun p => if p = report_path directory today
                then some (FsEntry.file (FileContent.json (write_report endpoints none today)))
                else fs p))
    ∧ (readPath fs (os_path_join directory "sparql.json") = some FileContent.malformed →
        write_report_run fs endpoints directory today
          = Except.error LoadError.parseError) := by
  constructor
  · intro h
    simp [write_report_run, load_json, h]
  · intro h
    simp [write_report_run, load_json, h]

/-- An empty file system: the first-run state. -/
def fsEmpty : Fs := fun _ => none

/-- A file system whose only entry is an unparsable `out/sparql.json`. -/
def fsMal : Fs := fun p =>
  if p = os_path_join "out" "sparql.json"
  then some (FsEntry.file FileContent.malformed) else none

/-- C6 witness: on the empty file system the run succeeds with empty
history; on the malformed one it aborts with the parse error. -/
theorem c6_history_absent_vs_malformed_witness :
    reportOf (write_report_run fsEmpty [] "out" "2024-01-02")
      = Except.ok (write_report [] none "2024-01-02")
    ∧ write_report_run fsMal [] "out" "2024-01-02"
      = Except.error LoadError.parseError := by
  constructor
  · rw [(c6_history_absent_vs_malformed fsEmpty [] "out" "2024-01-02").1 rfl]
    rfl
  · exact (c6_history_absent_vs_malformed fsMal [] "out" "2024-01-02").2 (by decide)

/-- A prior dated report for the C8 scenario. -/
def rpt_old : Report :=
  { created := "2024-01-01", timeoutSecond := 5, version := 1, report := [] }

/-- The freshly written dated report for the C8 scenario. -/
def rpt_new : Report :=
  { created := "2024-01-02", timeoutSecond := 5, version := 1, report := [] }

/-- A directory with two dated reports and the stable pointer still on
the old one. -/
def fs_c8 : Fs := fun p =>
  if p = "out/sparql-2024-01-01.json" then some (.file (.json rpt_old))
  else if p = "out/sparql-2024-01-02.json" then some (.file (.json rpt_new))
  else if p = "out/sparql.json" then some (.link "out/sparql-2024-01-01.json")
  else none

/-- C8 counterexample: the pointer update is not atomic. On `fs_c8` the
stable pointer resolves before the update, but in the intermediate state
of `symlink_report` — after `symlink.unlink(missing_ok=True)` and before
`symlink.symlink_to(...)` — the pointer is missing: it resolves to
nothing, refuting "never missing mid-update". -/
theorem c8_pointer_missing_mid_update :
    readPath fs_c8 (os_path_join "out" "sparql.json")
      = some (FileContent.json rpt_old)
    ∧ readPath (unlink_fs fs_c8 (os_path_join "out" "sparql.json"))
        (os_path_join "out" "sparql.json") = none := by
  decide

/-- C8 amended: `symlink_report` replaces the pointer in two separate
steps — unlink, then create. Once both steps have run the pointer
resolves to the target (the most recently written report), but in the
intermediate state after the unlink the pointer is missing. -/
theorem c8_amended_two_step_update (fs : Fs) (directory target : String)
    (c : FileContent) (hne : target ≠ os_path_join directory "sparql.json")
    (hc : fs target = some (FsEntry.file c)) :
    readPath (symlink_report fs directory target)
        (os_path_join directory "sparql.json") = some c
    ∧ readPath (unlink_fs fs (os_path_join directory "sparql.json"))
        (os_path_join directory "sparql.json") = none := by
  constructor
  · have hptr : symlink_report fs directory target
        (os_path_join directory "sparql.json") = some (FsEntry.link target) := by
      simp [symlink_report, symlink_to]
    have htgt : symlink_report fs directory target target
        = some (FsEntry.file c) := by
      simp [symlink_report, symlink_to, unlink_fs, hne, hc]
    simp [readPath, hptr, htgt]
  · simp [readPath, unlink_fs]

/-- C8 amended, witness: on `fs_c8`, after both steps the pointer
resolves to the new dated report; after only the unlink it is missing. -/
theorem c8_amended_two_step_update_witness :
    readPath (symlink_report fs_c8 "out" "out/sparql-2024-01-02.json")
        (os_path_join "out" "sparql.json") = some (FileContent.json rpt_new)
    ∧ readPath (unlink_fs fs_c8 (os_path_join "out" "sparql.json"))
        (os_path_join "out" "sparql.json") = none :=
  c8_amended_two_step_update fs_c8 "out" "out/sparql-2024-01-02.json"
    (FileContent.json rpt_new) (by decide) (by decide)

/-- C9: `write_report` reads its history exclusively through the fixed
name `sparql.json` in the output directory — the same name
`symlink_report` maintains: the report it builds depends only on what
that path resolves to (first conjunct); when that path resolves to
nothing the merge runs with empty history and no output record carries
`lastAvailable`, whatever dated report files sit at other paths (second
conjunct); and `symlink_report` touches exactly that path, recreating it
as a link (last two conjuncts). -/
theorem c9_fixed_history_name (endpoints : List ProbedEndpoint)
    (directory today : String) :
    (∀ fs fs2 : Fs,
        readPath fs (os_path_join directory "sparql.json")
          = readPath fs2 (os_path_join directory "sparql.json") →
        reportOf (write_report_run fs endpoints directory today)
          = reportOf (write_report_run fs2 endpoints directory today))
    ∧ (∀ fs : Fs, readPath fs (os_path_join directory "sparql.json") = none →
        reportOf (write_report_run fs endpoints directory today)
          = Except.ok (write_report endpoints none today)
        ∧ ∀ item ∈ (write_report endpoints none today).report,
            item.lastAvailable = none)
    ∧ (∀ fs : Fs, ∀ target p, p ≠ os_path_join directory "sparql.json" →
        symlink_report fs directory target p = fs p)
    ∧ (∀ fs : Fs, ∀ target,
        symlink_report fs directory target (os_path_join directory "sparql.json")
          = some (FsEntry.link target)) := by
  refine ⟨?_, ?_, ?_, ?_⟩
  · intro fs fs2 hagree
    unfold write_report_run load_json
    rw [hagree]
    cases readPath fs2 (os_path_join directory "sparql.json") with
    | none => rfl
    | some c =>
        cases c with
        | json r => rfl
        | malformed => rfl
  · intro fs h
    constructor
    · unfold reportOf write_report_run load_json
      rw [h]
      rfl
    · intro item hmem
      simp only [write_report] at hmem
      obtain ⟨pe, hpe, hrw⟩ := List.mem_map.mp hmem
      subst hrw
      by_cases hs : pe.status = STATUS_AVAILABLE
      · simp [mergeItem, hs]
      · simp [mergeItem, hs, historyLookup]
  · intro fs target p hp
    simp [symlink_report, symlink_to, unlink_fs, hp]
  · intro fs target
    simp [symlink_report, symlink_to]

/-- C9 witness: a run on the empty file system (no `sparql.json`; the
symlink option was never used) builds the empty-history report, and the
symlink update touches only the stable name. -/
theorem c9_fixed_history_name_witness :
    reportOf (write_report_run fsEmpty [peU] "out" "2024-01-03")
      = Except.ok (write_report [peU] none "2024-01-03")
    ∧ symlink_report fsEmpty "out" "out/sparql-2024-01-03.json" "other"
      = fsEmpty "other"
    ∧ symlink_report fsEmpty "out" "out/sparql-2024-01-03.json"
        (os_path_join "out" "sparql.json")
      = some (FsEntry.link "out/sparql-2024-01-03.json") :=
  ⟨((c9_fixed_history_name [peU] "out" "2024-01-03").2.1 fsEmpty rfl).1,
   (c9_fixed_history_name [peU] "out" "2024-01-03").2.2.1 fsEmpty
     "out/sparql-2024-01-03.json" "other" (by decide),
   (c9_fixed_history_name [peU] "out" "2024-01-03").2.2.2 fsEmpty
     "out/sparql-2024-01-03.json"⟩
